import Mathlib

/-!
Shallow embedding of the beach-safety client's zone-resolution and
alert-deduplication engine.

Sources embedded here:
  * `src/components/MapScreen.tsx` — remote-mode map screen
    (`mapZoneType`, `mapAlertTypeToZoneType`, `parseGeoJSONCoordinates`,
    `fetchAlerts`, `determineCurrentZone`).
  * `src/unnamed/part_005` — local-mode map screen variant
    (`mapZoneType`, `mapAlertTypeToZoneType`, `parseGeoJSONCoordinates`,
    `isPointInPolygon`, `fetchAlerts`, `determineCurrentZone`).
  * `src/unnamed/part_001` — background location task
    (alert matching on raw uppercased strings).
  * `src/SettingsContext.tsx` — `updateSettings`.

Modelling conventions: JavaScript numbers are embedded as rationals `ℚ`
(all values arising in the modelled paths are finite; the one division in
`isPointInPolygon` is guarded by a comparison that is false whenever the
divisor is zero, so `ℚ`'s division-by-zero convention never influences a
result). `null`/`undefined` become `Option`. Asynchronous fetches become
oracle parameters giving the outcome of each attempt. React state cells
(`useState`/`useRef`) become explicit input/output fields.
-/

namespace BeachSurf

/-- `type ZoneType = 'safe' | 'sport' | 'danger' | 'unknown'`
(`MapScreen.tsx` line 27; the `part_005` variant omits `'unknown'` and its
functions never produce it). -/
inductive ZoneType where
  | safe
  | sport
  | danger
  | unknown
deriving DecidableEq, Repr

/-- `interface LocationCoords { latitude: number; longitude: number }`. -/
structure LocationCoords where
  latitude : ℚ
  longitude : ℚ
deriving DecidableEq, Repr

instance : Inhabited LocationCoords := ⟨⟨0, 0⟩⟩

/-- `interface Zone { id; type: ZoneType; coordinates: LocationCoords[]; ... }`
(fields not used by the embedded logic are omitted). -/
structure Zone where
  id : Int
  type : ZoneType
  coordinates : List LocationCoords
deriving DecidableEq, Repr

/-- `interface Beach { id; name; zones: Zone[]; ... }`. -/
structure Beach where
  id : Int
  name : String
  zones : List Zone
deriving DecidableEq, Repr

/-- `interface Alert { id; type: string; message: string; beachId; zoneId?: number }`. -/
structure Alert where
  id : Int
  type : String
  message : String
  beachId : Int
  zoneId : Option Int
deriving DecidableEq, Repr

/-- `interface Settings` from `SettingsContext.tsx`. -/
structure Settings where
  notifications : Bool
  locationAlerts : Bool
  dailyTips : Bool
  sounds : Bool
  vibrations : Bool
deriving DecidableEq, Repr

/-- JavaScript `String.prototype.toUpperCase`, modelled as a per-character
uppercase map (this coincides with JS on ASCII input, which is all the
mapped code paths compare against). -/
def jsToUpper (s : String) : String := String.mk (s.data.map Char.toUpper)

/-- `mapZoneType` (`MapScreen.tsx` lines 219-227 and `part_005` lines
126-135): uppercase the backend string, then `switch`:
`'BATHING' → 'safe'`, `'SPORTS' → 'sport'`, default `'danger'`.
A `switch` on strings is a sequence of equality tests, embedded as an
if-chain. -/
def mapZoneType (backendType : String) : ZoneType :=
  let type := jsToUpper backendType
  if type = "BATHING" then .safe
  else if type = "SPORTS" then .sport
  else .danger

/-- `mapAlertTypeToZoneType` (`MapScreen.tsx` lines 229-238 and `part_005`
lines 137-148): uppercase, then `'BATHING' → 'safe'`, `'SPORTS' → 'sport'`,
`'DANGER' → 'danger'`, default `'danger'`. -/
def mapAlertTypeToZoneType (alertType : String) : ZoneType :=
  let type := jsToUpper alertType
  if type = "BATHING" then .safe
  else if type = "SPORTS" then .sport
  else if type = "DANGER" then .danger
  else .danger

/-! ## Geometry engine (`part_005` lines 412-425) -/

/-- One iteration of the ray-casting loop body of `isPointInPolygon`:
with `xi,yi` the latitude/longitude of vertex `i` and `xj,yj` those of the
preceding vertex `j`, the edge toggles the parity when
`((yi > point.longitude) !== (yj > point.longitude)) &&
 point.latitude < ((xj - xi) * (point.longitude - yi)) / (yj - yi) + xi`.
When `yi = yj` the first conjunct is false, so the division by `yj - yi`
(which JS evaluates to an infinity or NaN and Lean's `ℚ` evaluates to 0)
never decides the outcome; on the remaining inputs `ℚ` division agrees
with the real-number reading of the source. -/
def edgeCrosses (point pi pj : LocationCoords) : Bool :=
  let xi := pi.latitude
  let yi := pi.longitude
  let xj := pj.latitude
  let yj := pj.longitude
  (decide (yi > point.longitude) != decide (yj > point.longitude)) &&
    decide (point.latitude < (xj - xi) * (point.longitude - yi) / (yj - yi) + xi)

/-- `isPointInPolygon` (`part_005` lines 412-425): even-odd ray casting.
The JS loop runs `i` over all indices with `j` the previous index
(wrapping to the last vertex for `i = 0`) and flips `inside` on each
crossing edge. -/
def isPointInPolygon (point : LocationCoords) (polygon : List LocationCoords) : Bool :=
  (List.range polygon.length).foldl
    (fun inside i =>
      let vi := polygon.getD i default
      let vj := polygon.getD (if i = 0 then polygon.length - 1 else i - 1) default
      if edgeCrosses point vi vj then !inside else inside)
    false

/-! ## Local-mode zone resolution and dispatcher (`part_005` lines 371-410) -/

/-- Inner loop of `determineCurrentZone` (`part_005` lines 378-384) over one
beach's zones: the first zone with at least 3 coordinates containing the
point sets `foundZone` to its type and breaks; if none matches,
`foundZone` keeps the value `'danger'` it entered the beach with. -/
def scanZones (coords : LocationCoords) : List Zone → ZoneType
  | [] => .danger
  | z :: rest =>
    if decide (3 ≤ z.coordinates.length) && isPointInPolygon coords z.coordinates then z.type
    else scanZones coords rest

/-- Outer loop of `determineCurrentZone` (`part_005` lines 377-386):
`foundZone` starts at `'danger'`; after each beach the loop breaks as soon
as `foundZone !== 'danger'`, so a beach is scanned only while the value is
still `'danger'`. -/
def determineFoundZone (coords : LocationCoords) (beaches : List Beach) : ZoneType :=
  beaches.foldl (fun found b => if found = .danger then scanZones coords b.zones else found)
    .danger

/-- Alert selection of the `part_005` dispatcher (line 390):
`alerts.find(a => mapAlertTypeToZoneType(a.type) === foundZone)` —
note it matches on mapped type only, not on `zoneId`. -/
def p5FindAlert (alerts : List Alert) (foundZone : ZoneType) : Option Alert :=
  alerts.find? (fun a => decide (mapAlertTypeToZoneType a.type = foundZone))

/-- Output state of one `part_005` `determineCurrentZone` call: the
`currentZone` React state, the `previousZoneRef` cell after the call, and
the notification scheduled by the call (if any). -/
structure P5Result where
  currentZone : ZoneType
  previousZone : Option ZoneType
  notification : Option Alert
deriving DecidableEq, Repr

/-- `determineCurrentZone` (`part_005` lines 371-410). Early return when
`!settings.notifications || !settings.locationAlerts` sets the zone to
`'safe'` and leaves `previousZoneRef` untouched. Otherwise containment is
resolved, and on a kind change (`foundZone !== previousZoneRef.current`,
where the initial `null` differs from every kind) a notification is
scheduled when a matching alert exists and both settings flags hold;
`previousZoneRef` is then updated to `foundZone`. -/
def determineCurrentZoneP5 (settings : Settings) (beaches : List Beach) (alerts : List Alert)
    (previousZone : Option ZoneType) (coords : LocationCoords) : P5Result :=
  if !settings.notifications || !settings.locationAlerts then
    { currentZone := .safe, previousZone := previousZone, notification := none }
  else
    let foundZone := determineFoundZone coords beaches
    if previousZone ≠ some foundZone then
      let alert := p5FindAlert alerts foundZone
      { currentZone := foundZone
        previousZone := some foundZone
        notification :=
          if settings.notifications && settings.locationAlerts then alert else none }
    else
      { currentZone := foundZone, previousZone := previousZone, notification := none }

/-- The `part_005` dispatcher as a function of the already-resolved zone
kind (the body of `determineCurrentZone` after the containment scan);
`determineCurrentZoneP5_eq_dispatch` proves the factorization. -/
def dispatchP5 (settings : Settings) (alerts : List Alert)
    (previousZone : Option ZoneType) (foundZone : ZoneType) : P5Result :=
  if !settings.notifications || !settings.locationAlerts then
    { currentZone := .safe, previousZone := previousZone, notification := none }
  else if previousZone ≠ some foundZone then
    { currentZone := foundZone
      previousZone := some foundZone
      notification :=
        if settings.notifications && settings.locationAlerts then p5FindAlert alerts foundZone
        else none }
  else
    { currentZone := foundZone, previousZone := previousZone, notification := none }

/-- Run the `part_005` dispatcher over a sequence of resolved zone kinds,
threading `previousZoneRef` and collecting the notification (or `none`)
emitted at each step. -/
def runDispatchP5 (settings : Settings) (alerts : List Alert) :
    Option ZoneType → List ZoneType → List (Option Alert)
  | _, [] => []
  | prev, k :: ks =>
    let r := dispatchP5 settings alerts prev k
    r.notification :: runDispatchP5 settings alerts r.previousZone ks

/-- Number of steps of a dispatcher run that actually emitted a
notification. -/
def countDispatched (l : List (Option Alert)) : ℕ := l.countP Option.isSome

/-- The spec's change predicate, step by step: a resolution counts as a
change when its kind differs from the previous state, the initial `null`
state differing from every kind. -/
def changeFlags : Option ZoneType → List ZoneType → List Bool
  | _, [] => []
  | prev, k :: ks => decide (prev ≠ some k) :: changeFlags (some k) ks

/-- Number of change points of a kind sequence. -/
def changeCount : Option ZoneType → List ZoneType → ℕ
  | _, [] => 0
  | prev, k :: ks => (if prev ≠ some k then 1 else 0) + changeCount (some k) ks

/-! ## Remote-mode zone resolution (`MapScreen.tsx` lines 506-592) -/

/-- Parsed body of a successful `POST /api/users/check-location` response
as consumed by `MapScreen.tsx`. -/
structure CheckLocationResult where
  inside : Bool
  zoneType : String
  zoneId : Option Int
  beachId : Int
  beachName : String
deriving DecidableEq, Repr

/-- Output state of one `MapScreen.tsx` `determineCurrentZone` call:
React state (`currentZone`, `currentZoneId`, the current beach id,
`currentAlertMessage`), the `previousZoneRef` cell after the call, and the
bodies of the `Alert.alert` dialogs shown by the call. -/
structure MSResult where
  currentZone : ZoneType
  currentZoneId : Option Int
  currentBeachId : Option Int
  currentAlertMessage : String
  previousZone : Option ZoneType
  popups : List String
deriving DecidableEq, Repr

/-- The "no beach zones nearby" message (`MapScreen.tsx` lines 513, 584,
590). -/
def noZoneMessage (language : String) : String :=
  if language = "fr" then "Aucune zone de plage à proximité" else "No beach zones nearby"

/-- The per-kind fallback message synthesized when no alert matches
(`MapScreen.tsx` lines 562-567). -/
def defaultZoneMessage (language : String) (zoneType : ZoneType) : String :=
  if zoneType = .safe then
    if language = "fr" then "Conditions de baignade sécurisées" else "Safe swimming conditions"
  else if zoneType = .sport then
    if language = "fr" then "Zone de surf. Prudence recommandée." else
      "Surfing zone. Exercise caution."
  else
    if language = "fr" then "Conditions de baignade dangereuses. Évitez de nager." else
      "Dangerous swimming conditions. Avoid swimming."

/-- Alert selection of the `MapScreen.tsx` path (lines 546-550):
`alerts.find(a => mapAlertTypeToZoneType(a.type) === zoneType
&& a.zoneId === result.zoneId)`. -/
def msFindAlert (alerts : List Alert) (zoneType : ZoneType) (zoneId : Option Int) :
    Option Alert :=
  alerts.find? (fun a =>
    decide (mapAlertTypeToZoneType a.type = zoneType) && decide (a.zoneId = zoneId))

/-- Alert selection of the background task (`part_001` line 93):
`alerts.find(a => a.zoneId === result.zoneId
&& a.type.toUpperCase() === result.zoneType.toUpperCase())` — raw string
comparison, not routed through the zone-kind mapping functions. -/
def bgFindAlert (alerts : List Alert) (resultZoneId : Option Int) (resultZoneType : String) :
    Option Alert :=
  alerts.find? (fun a =>
    decide (a.zoneId = resultZoneId) && decide (jsToUpper a.type = jsToUpper resultZoneType))

/-- `determineCurrentZone` (`MapScreen.tsx` lines 506-592), remote mode.
`checkOutcome = none` stands for any failed or unparseable
`check-location` call (the `catch` branch); `fetchedAlerts` is the list
returned by the inner `fetchAlerts` call (empty after its own exhaustion).
When a matching alert is found the dialog fires whenever
`settings.locationAlerts` holds; only the fallback-message branch also
requires `previousZoneRef.current !== zoneType`. -/
def determineCurrentZoneMS (settings : Settings) (language : String)
    (checkOutcome : Option CheckLocationResult) (fetchedAlerts : List Alert)
    (previousZone : Option ZoneType) : MSResult :=
  if !settings.locationAlerts then
    { currentZone := .unknown, currentZoneId := none, currentBeachId := none
      currentAlertMessage := noZoneMessage language
      previousZone := previousZone, popups := [] }
  else
    match checkOutcome with
    | none =>
      { currentZone := .unknown, currentZoneId := none, currentBeachId := none
        currentAlertMessage := noZoneMessage language
        previousZone := some .unknown, popups := [] }
    | some result =>
      if result.inside then
        let zoneType := mapZoneType result.zoneType
        match msFindAlert fetchedAlerts zoneType result.zoneId with
        | some alert =>
          { currentZone := zoneType, currentZoneId := result.zoneId
            currentBeachId := some result.beachId
            currentAlertMessage := alert.message
            previousZone := some zoneType
            popups := if settings.locationAlerts then [alert.message] else [] }
        | none =>
          let zoneMessage := defaultZoneMessage language zoneType
          { currentZone := zoneType, currentZoneId := result.zoneId
            currentBeachId := some result.beachId
            currentAlertMessage := zoneMessage
            previousZone := some zoneType
            popups :=
              if settings.locationAlerts && decide (previousZone ≠ some zoneType) then
                [zoneMessage]
              else [] }
      else
        { currentZone := .unknown, currentZoneId := none, currentBeachId := none
          currentAlertMessage := noZoneMessage language
          previousZone := some .unknown, popups := [] }

/-! ## GeoJSON parsing (`MapScreen.tsx` lines 240-266, `part_005` lines
150-170) -/

/-- Values produced by `JSON.parse` (strict JSON: numbers are finite). -/
inductive JsonVal where
  | null
  | bool (b : Bool)
  | num (q : ℚ)
  | str (s : String)
  | arr (items : List JsonVal)
  | obj (fields : List (String × JsonVal))
deriving Repr

/-- JS property access `v.name` on a parsed JSON value: `none` stands for
`undefined`. Access on `null` throws in JS; every modelled caller wraps the
access in a `try` whose `catch` returns `[]`, and the caller also returns
`[]` when the accessed field is not the value it requires, so returning
`none` here yields the same parse result as the throw. -/
def jsGetField : JsonVal → String → Option JsonVal
  | .obj fields, name => (fields.find? (fun f => decide (f.1 = name))).map (fun f => f.2)
  | _, _ => none

/-- JS array destructuring `[longitude, latitude] = pt` for one ring
entry: arrays yield their first two elements (`undefined` past the end),
strings are iterable and yield their first two characters, and every
other value throws a `TypeError` (`none` here), which the surrounding
`try` turns into a `[]` result. -/
def jsDestructurePair : JsonVal → Option (Option JsonVal × Option JsonVal)
  | .arr xs => some (xs.get? 0, xs.get? 1)
  | .str s =>
    some ((s.data.get? 0).map (fun c => .str (String.mk [c])),
      (s.data.get? 1).map (fun c => .str (String.mk [c])))
  | _ => none

/-- Destructure every ring entry; `none` as soon as one entry throws
(the JS `map` callback throws, aborting the whole `map`). -/
def jsDestructureAll : List JsonVal → Option (List (Option JsonVal × Option JsonVal))
  | [] => some []
  | p :: rest =>
    match jsDestructurePair p with
    | none => none
    | some q => (jsDestructureAll rest).map (fun l => q :: l)

/-- Simplified JS numeric-string test used by `jsIsNaN` on strings: a
whitespace-only string coerces to 0, otherwise an optional sign, digits
and at most one decimal point (exponents and hex forms, which no modelled
theorem exercises, are not modelled). -/
def jsStrNumeric (s : String) : Bool :=
  let t := s.trim
  if t.isEmpty then true
  else
    let u := if t.startsWith "-" || t.startsWith "+" then t.drop 1 else t
    match u.splitOn "." with
    | [w] => !w.isEmpty && w.data.all Char.isDigit
    | [w, f] => (!w.isEmpty || !f.isEmpty) && (w ++ f).data.all Char.isDigit
    | _ => false

/-- Number coercion NaN-test for a non-wrapped value: `Number(null) = 0`,
booleans coerce to 0/1, JSON numbers are finite, strings coerce through
the numeric grammar, arrays and objects here are NaN (a one-element array
nested inside another is flattened by JS string coercion; that corner, not
exercised by any theorem below, is conservatively NaN in this model). -/
def jsIsNaNScalar : JsonVal → Bool
  | .null => false
  | .bool _ => false
  | .num _ => false
  | .str s => !jsStrNumeric s
  | .arr _ => true
  | .obj _ => true

/-- JS global `isNaN(v)` (coerce to number, test NaN) on a destructured
ring-entry component; `none` is `undefined` (`Number(undefined)` is NaN).
`[] = 0`, a one-element array coerces to its element, longer arrays and
objects are NaN. -/
def jsIsNaN : Option JsonVal → Bool
  | none => true
  | some .null => false
  | some (.bool _) => false
  | some (.num _) => false
  | some (.str s) => !jsStrNumeric s
  | some (.arr []) => false
  | some (.arr [x]) => jsIsNaNScalar x
  | some (.arr (_ :: _ :: _)) => true
  | some (.obj _) => true

/-- The `{ latitude, longitude }` object literal built by the parsers'
`map` callback: the raw destructured JS values (which the source does not
coerce to numbers), `none` being `undefined`. -/
structure JsCoord where
  latitude : Option JsonVal
  longitude : Option JsonVal

/-- `parseGeoJSONCoordinates` (`MapScreen.tsx` lines 240-266). The input
is the `JSON.parse` result (`none`: the parse threw). Validations in
source order: `type === 'Polygon'`, `coordinates` a non-empty array, its
first ring an array of at least 3 entries; then each entry is destructured
and mapped to `null` when `isNaN(latitude) || isNaN(longitude)`, and the
`null`s are filtered out — the filter runs AFTER the length check, so the
result can end up non-empty with fewer than 3 points. -/
def parseGeoJSONCoordinates (input : Option JsonVal) : List JsCoord :=
  match input with
  | none => []
  | some geoJson =>
    match jsGetField geoJson "type" with
    | some (.str t) =>
      if t = "Polygon" then
        match jsGetField geoJson "coordinates" with
        | some (.arr rings) =>
          match rings with
          | [] => []
          | ring0 :: _ =>
            match ring0 with
            | .arr pts =>
              if pts.length < 3 then []
              else
                match jsDestructureAll pts with
                | none => []
                | some pairs =>
                  pairs.filterMap (fun p =>
                    if jsIsNaN p.2 || jsIsNaN p.1 then none
                    else some { latitude := p.2, longitude := p.1 })
            | _ => []
        | _ => []
      else []
    | _ => []

/-- `parseGeoJSONCoordinates` (`part_005` lines 150-170): same structural
validations, but the entries are mapped to `{latitude, longitude}` with no
per-point numeric check at all. -/
def parseGeoJSONCoordinatesP5 (input : Option JsonVal) : List JsCoord :=
  match input with
  | none => []
  | some geoJson =>
    match jsGetField geoJson "type" with
    | some (.str t) =>
      if t = "Polygon" then
        match jsGetField geoJson "coordinates" with
        | some (.arr rings) =>
          match rings with
          | [] => []
          | ring0 :: _ =>
            match ring0 with
            | .arr pts =>
              if pts.length < 3 then []
              else
                match jsDestructureAll pts with
                | none => []
                | some pairs => pairs.map (fun p => { latitude := p.2, longitude := p.1 })
            | _ => []
        | _ => []
      else []
    | _ => []

/-! ## Alert fetching (`MapScreen.tsx` lines 302-328, `part_005` lines
254-297) -/

/-- Outcome of one HTTP attempt of the `MapScreen.tsx` `fetchAlerts`:
a 204, a parsed body, or anything that reaches the `catch` block
(HTTP error status, network failure, abort). -/
inductive FetchOutcome where
  | ok (alerts : List Alert)
  | noContent
  | failure
deriving DecidableEq, Repr

/-- `const maxRetries = 3` (`MapScreen.tsx` line 303). -/
def msMaxRetries : ℕ := 3

/-- `fetchAlerts` (`MapScreen.tsx` lines 302-328), with the outcome of
attempt `i` supplied by `oracle i`. A 204 stores and returns `[]`, a
parsed body is stored and returned, and a caught error recurses with
`retryCount + 1` while `retryCount < maxRetries - 1`, otherwise sets the
error state and returns `[]`. The fuel argument only bounds the structural
recursion; `msMaxRetries` fuel is never exhausted because `retryCount`
stays below `msMaxRetries`. -/
def fetchAlertsMSAux : ℕ → (ℕ → FetchOutcome) → ℕ → List Alert
  | 0, _, _ => []
  | fuel + 1, oracle, retryCount =>
    match oracle retryCount with
    | .noContent => []
    | .ok data => data
    | .failure =>
      if retryCount < msMaxRetries - 1 then fetchAlertsMSAux fuel oracle (retryCount + 1)
      else []

/-- The `fetchAlerts(beachId)` entry point of `MapScreen.tsx`
(`retryCount` defaults to 0). -/
def fetchAlertsMS (oracle : ℕ → FetchOutcome) : List Alert :=
  fetchAlertsMSAux msMaxRetries oracle 0

/-- `fetchAlerts` (`part_005` lines 254-297), attempts numbered from 1:
`while (attempt <= retryCount)`, each attempt guarded by an
`AbortController` timeout; `oracle attempt = some data` is a parsed
response, `none` any caught failure (HTTP error, network error, abort).
On the last attempt (`attempt === retryCount`) the function sets the error
state and returns without a value — here `none` — leaving the `alerts`
React state untouched; otherwise it sleeps the fixed delay and retries.
The code's `retryCount === 0` mode loops forever and is never invoked
(the only call site uses the default 3); it is outside this model. -/
def fetchAlertsP5Aux : ℕ → (ℕ → Option (List Alert)) → ℕ → ℕ → Option (List Alert)
  | 0, _, _, _ => none
  | fuel + 1, oracle, retryCount, attempt =>
    match oracle attempt with
    | some data => some data
    | none =>
      if attempt = retryCount then none
      else fetchAlertsP5Aux fuel oracle retryCount (attempt + 1)

/-- The `fetchAlerts(beachId)` entry point of `part_005` with its default
`retryCount = 3`, starting at `attempt = 1`. -/
def fetchAlertsP5 (oracle : ℕ → Option (List Alert)) (retryCount : ℕ) : Option (List Alert) :=
  fetchAlertsP5Aux retryCount oracle retryCount 1

/-! ## Settings update (`SettingsContext.tsx` lines 42-50) -/

/-- `Partial<Settings>`: each field either present with a value or absent
(a field explicitly present as `undefined` behaves like an absent one for
the claims proved here and is not distinguished). -/
structure PartialSettings where
  notifications : Option Bool
  locationAlerts : Option Bool
  dailyTips : Option Bool
  sounds : Option Bool
  vibrations : Option Bool
deriving DecidableEq, Repr

/-- The object spread `{ ...settings, ...newSettings }`: fields present in
the partial override, the rest are copied from the previous value. -/
def mergeSettings (settings : Settings) (p : PartialSettings) : Settings :=
  { notifications := p.notifications.getD settings.notifications
    locationAlerts := p.locationAlerts.getD settings.locationAlerts
    dailyTips := p.dailyTips.getD settings.dailyTips
    sounds := p.sounds.getD settings.sounds
    vibrations := p.vibrations.getD settings.vibrations }

/-- Result of one `updateSettings` call: the new React state and the value
written to `AsyncStorage` under the fixed `'settings'` key. -/
structure SettingsUpdate where
  state : Settings
  persisted : Settings
deriving DecidableEq, Repr

/-- `updateSettings` (`SettingsContext.tsx` lines 42-50): merge the
partial into the current value, set the state, persist the same merged
value. -/
def updateSettings (settings : Settings) (p : PartialSettings) : SettingsUpdate :=
  let updatedSettings := mergeSettings settings p
  { state := updatedSettings, persisted := updatedSettings }

/-! ## Concrete inputs used by witnesses and counterexamples -/

/-- The default settings of `SettingsContext.tsx` (everything on,
`dailyTips` off). -/
def settingsAllOn : Settings :=
  { notifications := true, locationAlerts := true, dailyTips := false
    sounds := true, vibrations := true }

/-- A bathing-zone alert. -/
def alertBathing : Alert :=
  { id := 1, type := "BATHING", message := "Safe swim", beachId := 1, zoneId := some 5 }

/-- A sports-zone alert. -/
def alertSports : Alert :=
  { id := 2, type := "SPORTS", message := "Sport caution", beachId := 1, zoneId := some 6 }

/-- A danger-zone alert. -/
def alertDanger : Alert :=
  { id := 3, type := "DANGER", message := "Avoid swimming", beachId := 1, zoneId := some 7 }

/-- One alert per zone kind. -/
def demoAlerts : List Alert := [alertBathing, alertSports, alertDanger]

/-- A `check-location` response placing the user inside bathing zone 5 of
beach 1. -/
def msCheckInside : CheckLocationResult :=
  { inside := true, zoneType := "BATHING", zoneId := some 5, beachId := 1
    beachName := "Essaouira Beach" }

/-- A well-formed Polygon GeoJSON value whose third ring entry `[5]`
destructures to `longitude = 5, latitude = undefined`. -/
def geoJsonShortPoint : JsonVal :=
  .obj [("type", .str "Polygon"),
    ("coordinates", .arr [.arr [.arr [.num 0, .num 0], .arr [.num 1, .num 1], .arr [.num 5]]])]

/-- The default settings with `locationAlerts` switched off. -/
def settingsLocOff : Settings :=
  { notifications := true, locationAlerts := false, dailyTips := false
    sounds := true, vibrations := true }

/-- A square bathing zone with id 5 (coordinates as already mapped by
`fetchBeaches`). -/
def squareZone : Zone :=
  { id := 5, type := .safe
    coordinates := [⟨0, 0⟩, ⟨4, 0⟩, ⟨4, 4⟩, ⟨0, 4⟩] }

/-- A beach holding only `squareZone`. -/
def demoBeach : Beach := { id := 1, name := "Essaouira Beach", zones := [squareZone] }

/-- A bathing alert scoped to zone 99 — a different zone than
`squareZone` (id 5). -/
def alertWrongZone : Alert :=
  { id := 9, type := "BATHING", message := "Wrong zone alert", beachId := 1, zoneId := some 99 }

/-- A partial settings update turning `locationAlerts` off and naming no
other field. -/
def partialLocOff : PartialSettings :=
  { notifications := none, locationAlerts := some false, dailyTips := none
    sounds := none, vibrations := none }

instance : Inhabited JsCoord := ⟨⟨none, none⟩⟩

end BeachSurf

namespace BeachSurf

/-- C5: `mapZoneType` and `mapAlertTypeToZoneType` are total (they are Lean
functions), case-insensitive (they depend on the input only through its
uppercased form), and realize the documented tables: `"BATHING"`→safe,
`"SPORTS"`→sport, every other string (up to case) →danger for
`mapZoneType`; additionally `"DANGER"`→danger for `mapAlertTypeToZoneType`;
and `mapZoneType "bathing" = mapZoneType "BATHING" = safe`. -/
theorem C5_mappers_total_case_insensitive :
    (∀ s t : String, jsToUpper s = jsToUpper t →
      mapZoneType s = mapZoneType t ∧
      mapAlertTypeToZoneType s = mapAlertTypeToZoneType t) ∧
    mapZoneType "BATHING" = ZoneType.safe ∧
    mapZoneType "SPORTS" = ZoneType.sport ∧
    (∀ s : String, jsToUpper s ≠ "BATHING" → jsToUpper s ≠ "SPORTS" →
      mapZoneType s = ZoneType.danger) ∧
    mapAlertTypeToZoneType "BATHING" = ZoneType.safe ∧
    mapAlertTypeToZoneType "SPORTS" = ZoneType.sport ∧
    mapAlertTypeToZoneType "DANGER" = ZoneType.danger ∧
    (∀ s : String, jsToUpper s ≠ "BATHING" → jsToUpper s ≠ "SPORTS" →
      mapAlertTypeToZoneType s = ZoneType.danger) ∧
    mapZoneType "bathing" = ZoneType.safe ∧
    mapZoneType "bathing" = mapZoneType "BATHING" := by
  refine ⟨?_, by decide, by decide, ?_, by decide, by decide, by decide, ?_, by decide, by decide⟩
  · intro s t h
    constructor
    · simp only [mapZoneType, h]
    · simp only [mapAlertTypeToZoneType, h]
  · intro s h1 h2
    simp only [mapZoneType, if_neg h1, if_neg h2]
  · intro s h1 h2
    simp only [mapAlertTypeToZoneType, if_neg h1, if_neg h2]
    split <;> rfl

/-- Witness for C5 at concrete inputs: `"Bathing"` and `"bathing"` agree
(same uppercase form), and `"rocks"` maps to danger under both functions. -/
theorem C5_mappers_total_case_insensitive_witness :
    mapZoneType "Bathing" = mapZoneType "bathing" ∧
    mapZoneType "rocks" = ZoneType.danger ∧
    mapAlertTypeToZoneType "rocks" = ZoneType.danger := by
  refine ⟨(C5_mappers_total_case_insensitive.1 "Bathing" "bathing" (by decide)).1,
    C5_mappers_total_case_insensitive.2.2.2.1 "rocks" (by decide) (by decide),
    C5_mappers_total_case_insensitive.2.2.2.2.2.2.2.1 "rocks" (by decide) (by decide)⟩

/-- The local-mode `determineCurrentZone` factors as the containment scan
followed by the kind-level dispatcher. -/
theorem determineCurrentZoneP5_eq_dispatch (settings : Settings) (beaches : List Beach)
    (alerts : List Alert) (prev : Option ZoneType) (coords : LocationCoords) :
    determineCurrentZoneP5 settings beaches alerts prev coords =
      dispatchP5 settings alerts prev (determineFoundZone coords beaches) := rfl

/-- C1 (amended): in the `part_005` dispatcher, when `notifications` and
`locationAlerts` both hold throughout and a matching alert exists for
every resolved kind, a notification is emitted at exactly the steps whose
resolved kind differs from the previous state — the very first resolution
(state `null`) always counting as a change — both positionally and in
count. (The claim as frozen is refuted by `C1_counterexample`: the
`MapScreen.tsx` dispatcher dedups only its fallback path.) -/
theorem C1_p5_dedup_exact (settings : Settings) (alerts : List Alert)
    (prev : Option ZoneType) (kinds : List ZoneType)
    (hn : settings.notifications = true) (hl : settings.locationAlerts = true)
    (hmatch : ∀ k ∈ kinds, ∃ a ∈ alerts, mapAlertTypeToZoneType a.type = k) :
    (runDispatchP5 settings alerts prev kinds).map Option.isSome = changeFlags prev kinds ∧
    countDispatched (runDispatchP5 settings alerts prev kinds) = changeCount prev kinds := by
  induction kinds generalizing prev with
  | nil => exact ⟨rfl, rfl⟩
  | cons k ks ih =>
    have hk : (p5FindAlert alerts k).isSome = true := by
      rw [p5FindAlert, List.find?_isSome]
      obtain ⟨a, ha, hma⟩ := hmatch k (List.mem_cons_self k ks)
      exact ⟨a, ha, by simp [hma]⟩
    have hrest : ∀ k' ∈ ks, ∃ a ∈ alerts, mapAlertTypeToZoneType a.type = k' :=
      fun k' hk' => hmatch k' (List.mem_cons_of_mem _ hk')
    obtain ⟨ih1, ih2⟩ := ih (some k) hrest
    by_cases hch : prev = some k
    · constructor
      · simp [runDispatchP5, dispatchP5, hn, hl, hch, changeFlags, ih1]
      · simp only [runDispatchP5, dispatchP5, hn, hl, hch, changeCount, countDispatched,
          List.countP_cons] at ih2 ⊢
        simp [ih2]
    · constructor
      · simp [runDispatchP5, dispatchP5, hn, hl, hch, changeFlags, ih1, hk]
      · simp only [runDispatchP5, dispatchP5, hn, hl, hch, changeCount, countDispatched,
          List.countP_cons] at ih2 ⊢
        simp [ih2, hk, hch]
        omega

/-- Witness for C1 at the spec's own scenario: running the `part_005`
dispatcher over kinds [Safe, Safe, Safe, Sport, Sport, Danger] from the
initial `null` state, with default settings and one matching alert per
kind, emits exactly 3 notifications. -/
theorem C1_p5_dedup_exact_witness :
    countDispatched (runDispatchP5 settingsAllOn demoAlerts none
      [ZoneType.safe, ZoneType.safe, ZoneType.safe, ZoneType.sport, ZoneType.sport,
        ZoneType.danger]) = 3 := by
  have h := C1_p5_dedup_exact settingsAllOn demoAlerts none
    [ZoneType.safe, ZoneType.safe, ZoneType.safe, ZoneType.sport, ZoneType.sport,
      ZoneType.danger] rfl rfl (by decide)
  rw [h.2]
  decide

/-- Counterexample to C1 as frozen: in the `MapScreen.tsx` dispatcher with
`locationAlerts` true, a resolution whose kind (safe) equals the previous
state (safe) — no zone change — still pops an alert dialog when a
matching alert exists, so notifications are NOT emitted exactly at the
kind changes. -/
theorem C1_counterexample :
    settingsAllOn.locationAlerts = true ∧
    (determineCurrentZoneMS settingsAllOn "en" (some msCheckInside) demoAlerts
      (some ZoneType.safe)).currentZone = ZoneType.safe ∧
    (determineCurrentZoneMS settingsAllOn "en" (some msCheckInside) demoAlerts
      (some ZoneType.safe)).popups = ["Safe swim"] := by decide

/-- When no zone of a beach list contains the coordinate, the containment
scan keeps its `'danger'` default. -/
theorem scanZones_eq_danger (coords : LocationCoords) (zones : List Zone)
    (h : ∀ z ∈ zones,
      ¬(3 ≤ z.coordinates.length ∧ isPointInPolygon coords z.coordinates = true)) :
    scanZones coords zones = .danger := by
  induction zones with
  | nil => rfl
  | cons z rest ih =>
    have hz := h z (List.mem_cons_self z rest)
    have : (decide (3 ≤ z.coordinates.length) && isPointInPolygon coords z.coordinates) =
        false := by
      rcases Bool.eq_false_or_eq_true (isPointInPolygon coords z.coordinates) with hin | hin
      · have hlen : ¬3 ≤ z.coordinates.length := fun hlen => hz ⟨hlen, hin⟩
        simp [hin, hlen]
      · simp [hin]
    simp [scanZones, this]
    exact ih fun z' hz' => h z' (List.mem_cons_of_mem _ hz')

/-- Ditto for the full beach loop of `part_005`. -/
theorem determineFoundZone_eq_danger (coords : LocationCoords) (beaches : List Beach)
    (h : ∀ b ∈ beaches, ∀ z ∈ b.zones,
      ¬(3 ≤ z.coordinates.length ∧ isPointInPolygon coords z.coordinates = true)) :
    determineFoundZone coords beaches = .danger := by
  induction beaches with
  | nil => rfl
  | cons b rest ih =>
    have hb : scanZones coords b.zones = .danger :=
      scanZones_eq_danger coords b.zones (h b (List.mem_cons_self b rest))
    have ih' := ih fun b' hb' => h b' (List.mem_cons_of_mem _ hb')
    simp only [determineFoundZone, List.foldl_cons] at ih' ⊢
    simpa [hb] using ih'

/-- C2 (amended): in the remote-mode variant (`MapScreen.tsx`), a failed
`check-location` call and an `inside=false` response both yield
zone kind `unknown` with null zone and beach ids, for every coordinate and
alert cache; in the local-mode variant (`part_005`), with alerts enabled,
when no zone contains the coordinate — in particular when zero zones are
available because the beach fetch failed — the resolved kind is `danger`,
never `unknown`. (The claim as frozen, which requires `Unknown` in the
zero-zone case, is refuted by `C2_counterexample`.) -/
theorem C2_no_zone_defaults (settings : Settings) (language : String)
    (fetched : List Alert) (prev : Option ZoneType)
    (hl : settings.locationAlerts = true) :
    ((determineCurrentZoneMS settings language none fetched prev).currentZone =
        ZoneType.unknown ∧
      (determineCurrentZoneMS settings language none fetched prev).currentZoneId = none ∧
      (determineCurrentZoneMS settings language none fetched prev).currentBeachId = none) ∧
    (∀ r : CheckLocationResult, r.inside = false →
      (determineCurrentZoneMS settings language (some r) fetched prev).currentZone =
          ZoneType.unknown ∧
      (determineCurrentZoneMS settings language (some r) fetched prev).currentZoneId = none ∧
      (determineCurrentZoneMS settings language (some r) fetched prev).currentBeachId =
        none) ∧
    (∀ (alerts : List Alert) (coords : LocationCoords), settings.notifications = true →
      (determineCurrentZoneP5 settings [] alerts prev coords).currentZone =
        ZoneType.danger) ∧
    (∀ (beaches : List Beach) (alerts : List Alert) (coords : LocationCoords),
      settings.notifications = true →
      (∀ b ∈ beaches, ∀ z ∈ b.zones,
        ¬(3 ≤ z.coordinates.length ∧ isPointInPolygon coords z.coordinates = true)) →
      (determineCurrentZoneP5 settings beaches alerts prev coords).currentZone =
        ZoneType.danger) := by
  refine ⟨?_, ?_, ?_, ?_⟩
  · simp [determineCurrentZoneMS, hl]
  · intro r hr
    simp [determineCurrentZoneMS, hl, hr]
  · intro alerts coords hn
    simp only [determineCurrentZoneP5_eq_dispatch, dispatchP5, hn, hl]
    have : determineFoundZone coords [] = .danger := rfl
    rw [this]
    by_cases hch : prev = some ZoneType.danger <;> simp [hch]
  · intro beaches alerts coords hn hno
    have hf := determineFoundZone_eq_danger coords beaches hno
    simp only [determineCurrentZoneP5_eq_dispatch, dispatchP5, hn, hl, hf]
    by_cases hch : prev = some ZoneType.danger <;> simp [hch]

/-- Witness for C2 at concrete inputs: a failed check call yields the
unknown kind in the remote variant, and the zero-zone local variant
resolves to danger. -/
theorem C2_no_zone_defaults_witness :
    (determineCurrentZoneMS settingsAllOn "en" none demoAlerts none).currentZone =
      ZoneType.unknown ∧
    (determineCurrentZoneP5 settingsAllOn [] demoAlerts none ⟨0, 0⟩).currentZone =
      ZoneType.danger :=
  ⟨(C2_no_zone_defaults settingsAllOn "en" demoAlerts none rfl).1.1,
    (C2_no_zone_defaults settingsAllOn "en" demoAlerts none rfl).2.2.1 demoAlerts ⟨0, 0⟩ rfl⟩

/-- Counterexample to C2 as frozen: with zero zones available and alerts
enabled, the local-mode variant resolves the zone kind to `danger`, not
`Unknown`. -/
theorem C2_counterexample :
    settingsAllOn.locationAlerts = true ∧ settingsAllOn.notifications = true ∧
    (determineCurrentZoneP5 settingsAllOn [] [] none ⟨0, 0⟩).currentZone = ZoneType.danger ∧
    (determineCurrentZoneP5 settingsAllOn [] [] none ⟨0, 0⟩).currentZone ≠
      ZoneType.unknown := by decide

/-- C3 (amended): in the remote-mode `MapScreen.tsx` path, the alert
selected for an `inside=true` resolution satisfies both matching
conditions — its mapped type equals the resolved zone kind and its
`zoneId` equals the resolved zone id; the `part_005` foreground path only
guarantees the mapped-type half (it ignores `zoneId`), and the background
task does not route its comparison through the mapping functions at all
(refuted in `C3_counterexample`). -/
theorem C3_alert_selection (alerts : List Alert) (zoneType : ZoneType) (zoneId : Option Int)
    (a : Alert) (hms : msFindAlert alerts zoneType zoneId = some a) :
    (mapAlertTypeToZoneType a.type = zoneType ∧ a.zoneId = zoneId) ∧
    (∀ (alerts' : List Alert) (k : ZoneType) (a' : Alert),
      p5FindAlert alerts' k = some a' → mapAlertTypeToZoneType a'.type = k) := by
  constructor
  · have hp := List.find?_some hms
    have h1 := (Bool.and_eq_true _ _).mp hp
    exact ⟨of_decide_eq_true h1.1, of_decide_eq_true h1.2⟩
  · intro alerts' k a' hfind
    rw [p5FindAlert] at hfind
    have h := List.find?_some hfind
    simp only [decide_eq_true_eq] at h
    exact h

/-- Witness for C3 at a concrete selection: `alertBathing` is selected for
a safe zone with id 5, and it indeed carries mapped type safe and zone
id 5. -/
theorem C3_alert_selection_witness :
    mapAlertTypeToZoneType alertBathing.type = ZoneType.safe ∧
    alertBathing.zoneId = some 5 :=
  (C3_alert_selection demoAlerts ZoneType.safe (some 5) alertBathing (by decide)).1

/-- Counterexample to C3 as frozen. First: the `part_005` dispatcher,
resolving the user into `squareZone` (id 5), notifies with an alert whose
`zoneId` is 99 — the selected alert's `zoneId` does not equal the resolved
zone's id. Second: not every zone-to-alert comparison routes through the
mapping functions — for zone type string `"ROCKS"` (mapped: danger) and an
alert of type `"DANGER"` with an equal zone id, the mapped comparison of
the foreground path matches while the background task's raw uppercased
string comparison does not. -/
theorem C3_counterexample :
    (determineCurrentZoneP5 settingsAllOn [demoBeach] [alertWrongZone] none
      ⟨2, 2⟩).notification = some alertWrongZone ∧
    alertWrongZone.zoneId = some 99 ∧
    squareZone.id = 5 ∧
    mapZoneType "ROCKS" = ZoneType.danger ∧
    msFindAlert [alertDanger] (mapZoneType "ROCKS") (some 7) = some alertDanger ∧
    bgFindAlert [alertDanger] (some 7) "ROCKS" = none := by
  have hin : isPointInPolygon ⟨2, 2⟩ [⟨0, 0⟩, ⟨4, 0⟩, ⟨4, 4⟩, ⟨0, 4⟩] = true := by
    rw [isPointInPolygon]
    norm_num [edgeCrosses, List.range_succ, List.getD]
  have hfz : determineFoundZone ⟨2, 2⟩ [demoBeach] = ZoneType.safe := by
    simp [determineFoundZone, demoBeach, scanZones, squareZone, hin]
  refine ⟨?_, by decide, by decide, by decide, by decide, by decide⟩
  rw [determineCurrentZoneP5_eq_dispatch, hfz]
  decide

/-- C10: the zone-side and alert-side normalizers agree on every input
string — `mapAlertTypeToZoneType`'s extra `'DANGER'` case returns exactly
what `mapZoneType`'s default branch returns, so the two functions are
extensionally equal. -/
theorem C10_mappers_extensionally_equal :
    ∀ s : String, mapZoneType s = mapAlertTypeToZoneType s := by
  intro s
  simp only [mapZoneType, mapAlertTypeToZoneType]
  split <;> try rfl
  split <;> try rfl
  split <;> rfl


theorem jsDestructureAll_length (l : List JsonVal)
    (l' : List (Option JsonVal × Option JsonVal)) (h : jsDestructureAll l = some l') :
    l'.length = l.length := by
  induction l generalizing l' with
  | nil =>
    simp only [jsDestructureAll, Option.some.injEq] at h
    simp [← h]
  | cons p rest ih =>
    simp only [jsDestructureAll] at h
    cases hp : jsDestructurePair p with
    | none => rw [hp] at h; exact absurd h (by simp)
    | some q =>
      rw [hp] at h
      cases hr : jsDestructureAll rest with
      | none => rw [hr] at h; exact absurd h (by simp)
      | some l2 =>
        rw [hr] at h
        simp only [Option.map] at h
        simp only [Option.some.injEq] at h
        rw [← h]
        simp [ih l2 hr]

theorem parse_inversion (input : Option JsonVal) (h : parseGeoJSONCoordinates input ≠ []) :
    ∃ g : JsonVal, input = some g ∧
      jsGetField g "type" = some (.str "Polygon") ∧
      ∃ (pts rest : List JsonVal),
        jsGetField g "coordinates" = some (.arr (JsonVal.arr pts :: rest)) ∧
        3 ≤ pts.length ∧
        (parseGeoJSONCoordinates input).length ≤ pts.length := by
  cases input with
  | none => exact absurd rfl h
  | some g =>
    cases hT : jsGetField g "type" with
    | none => exact absurd (by simp [parseGeoJSONCoordinates, hT]) h
    | some tv =>
      cases tv with
      | str s =>
        by_cases hs : s = "Polygon"
        · subst hs
          cases hC : jsGetField g "coordinates" with
          | none => exact absurd (by simp [parseGeoJSONCoordinates, hT, hC]) h
          | some cv =>
            cases cv with
            | arr rings =>
              cases rings with
              | nil => exact absurd (by simp [parseGeoJSONCoordinates, hT, hC]) h
              | cons r0 rest =>
                cases r0 with
                | arr pts =>
                  by_cases hlen : pts.length < 3
                  · exact absurd (by simp [parseGeoJSONCoordinates, hT, hC, hlen]) h
                  · cases hD : jsDestructureAll pts with
                    | none =>
                      exact absurd (by simp [parseGeoJSONCoordinates, hT, hC, hlen, hD]) h
                    | some pairs =>
                      refine ⟨g, rfl, hT, pts, rest, hC, by omega, ?_⟩
                      have hparse : parseGeoJSONCoordinates (some g) =
                          pairs.filterMap (fun p =>
                            if jsIsNaN p.2 || jsIsNaN p.1 then none
                            else some { latitude := p.2, longitude := p.1 }) := by
                        simp [parseGeoJSONCoordinates, hT, hC, hlen, hD]
                      rw [hparse]
                      calc (pairs.filterMap _).length ≤ pairs.length :=
                            List.length_filterMap_le _ _
                        _ = pts.length := jsDestructureAll_length pts pairs hD
                | _ => exact absurd (by simp [parseGeoJSONCoordinates, hT, hC]) h
            | _ => exact absurd (by simp [parseGeoJSONCoordinates, hT, hC]) h
        · exact absurd (by simp [parseGeoJSONCoordinates, hT, hs]) h
      | _ => exact absurd (by simp [parseGeoJSONCoordinates, hT]) h

theorem parse_nan_filter (input : Option JsonVal) :
    (parseGeoJSONCoordinates input).all
      (fun c => !jsIsNaN c.latitude && !jsIsNaN c.longitude) = true := by
  rw [List.all_eq_true]
  intro c hc
  unfold parseGeoJSONCoordinates at hc
  repeat' split at hc
  all_goals try exact absurd hc (List.not_mem_nil c)
  rw [List.mem_filterMap] at hc
  obtain ⟨p, hmem, hp⟩ := hc
  by_cases hn : (jsIsNaN p.2 || jsIsNaN p.1) = true
  · rw [if_pos hn] at hp
    exact absurd hp (by simp)
  · rw [if_neg hn] at hp
    have hceq := Option.some.inj hp
    simp only [Bool.or_eq_true, not_or, Bool.not_eq_true] at hn
    rw [← hceq]
    simp [hn.1, hn.2]

theorem parseP5_dichotomy (input : Option JsonVal) :
    parseGeoJSONCoordinatesP5 input = [] ∨ 3 ≤ (parseGeoJSONCoordinatesP5 input).length := by
  cases input with
  | none => exact Or.inl rfl
  | some g =>
    cases hT : jsGetField g "type" with
    | none => exact Or.inl (by simp [parseGeoJSONCoordinatesP5, hT])
    | some tv =>
      cases tv with
      | str s =>
        by_cases hs : s = "Polygon"
        · subst hs
          cases hC : jsGetField g "coordinates" with
          | none => exact Or.inl (by simp [parseGeoJSONCoordinatesP5, hT, hC])
          | some cv =>
            cases cv with
            | arr rings =>
              cases rings with
              | nil => exact Or.inl (by simp [parseGeoJSONCoordinatesP5, hT, hC])
              | cons r0 rest =>
                cases r0 with
                | arr pts =>
                  by_cases hlen : pts.length < 3
                  · exact Or.inl (by simp [parseGeoJSONCoordinatesP5, hT, hC, hlen])
                  · cases hD : jsDestructureAll pts with
                    | none =>
                      exact Or.inl (by simp [parseGeoJSONCoordinatesP5, hT, hC, hlen, hD])
                    | some pairs =>
                      refine Or.inr ?_
                      have hparse : parseGeoJSONCoordinatesP5 (some g) =
                          pairs.map (fun p => { latitude := p.2, longitude := p.1 }) := by
                        simp [parseGeoJSONCoordinatesP5, hT, hC, hlen, hD]
                      rw [hparse, List.length_map, jsDestructureAll_length pts pairs hD]
                      omega
                | _ => exact Or.inl (by simp [parseGeoJSONCoordinatesP5, hT, hC])
            | _ => exact Or.inl (by simp [parseGeoJSONCoordinatesP5, hT, hC])
        · exact Or.inl (by simp [parseGeoJSONCoordinatesP5, hT, hs])
      | _ => exact Or.inl (by simp [parseGeoJSONCoordinatesP5, hT])


theorem C6_parser_validations :
    parseGeoJSONCoordinates none = [] ∧
    (∀ input : Option JsonVal,
      (parseGeoJSONCoordinates input).all
        (fun c => !jsIsNaN c.latitude && !jsIsNaN c.longitude) = true) ∧
    (∀ input : Option JsonVal, parseGeoJSONCoordinates input ≠ [] →
      ∃ g : JsonVal, input = some g ∧
        jsGetField g "type" = some (.str "Polygon") ∧
        ∃ (pts rest : List JsonVal),
          jsGetField g "coordinates" = some (.arr (JsonVal.arr pts :: rest)) ∧
          3 ≤ pts.length ∧
          (parseGeoJSONCoordinates input).length ≤ pts.length) ∧
    (∀ input : Option JsonVal,
      parseGeoJSONCoordinatesP5 input = [] ∨ 3 ≤ (parseGeoJSONCoordinatesP5 input).length) :=
  ⟨rfl, parse_nan_filter, parse_inversion, parseP5_dichotomy⟩

theorem C6_parser_validations_witness :
    (parseGeoJSONCoordinates (some geoJsonShortPoint)).all
      (fun c => !jsIsNaN c.latitude && !jsIsNaN c.longitude) = true ∧
    (parseGeoJSONCoordinates (some geoJsonShortPoint)).length ≤ 3 := by
  have hlen : (parseGeoJSONCoordinates (some geoJsonShortPoint)).length = 2 := by decide
  refine ⟨C6_parser_validations.2.1 (some geoJsonShortPoint), ?_⟩
  obtain ⟨g, hg, hT, pts, rest, hC, hlen3, hbound⟩ :=
    C6_parser_validations.2.2.1 (some geoJsonShortPoint)
      (List.length_pos.mp (by rw [hlen]; norm_num))
  have hg' := (Option.some.inj hg).symm
  subst hg'
  have hCval : jsGetField geoJsonShortPoint "coordinates" =
      some (.arr [.arr [.arr [.num 0, .num 0], .arr [.num 1, .num 1], .arr [.num 5]]]) := rfl
  rw [hCval] at hC
  simp only [Option.some.injEq, JsonVal.arr.injEq, List.cons.injEq] at hC
  have hpts : pts = [.arr [.num 0, .num 0], .arr [.num 1, .num 1], .arr [.num 5]] :=
    hC.1.symm
  calc (parseGeoJSONCoordinates (some geoJsonShortPoint)).length ≤ pts.length := hbound
    _ = 3 := by rw [hpts]; rfl

theorem C6_counterexample :
    (parseGeoJSONCoordinates (some geoJsonShortPoint)).length = 2 ∧
    parseGeoJSONCoordinates (some geoJsonShortPoint) ≠ [] ∧
    (parseGeoJSONCoordinates (some geoJsonShortPoint)).length < 3 := by
  have h2 : (parseGeoJSONCoordinates (some geoJsonShortPoint)).length = 2 := by decide
  exact ⟨h2, List.length_pos.mp (by rw [h2]; norm_num), by rw [h2]; norm_num⟩


/-- C7: with `settings.locationAlerts = false` no dispatcher variant ever
emits: the `part_005` `determineCurrentZone` returns through its early
branch with no notification, the `MapScreen.tsx` `determineCurrentZone`
shows no dialog on any input, and a whole run of the `part_005` dispatcher
over any kind sequence emits nothing at every step. -/
theorem C7_no_dispatch_when_disabled (settings : Settings)
    (hl : settings.locationAlerts = false) :
    (∀ (beaches : List Beach) (alerts : List Alert) (prev : Option ZoneType)
      (coords : LocationCoords),
      (determineCurrentZoneP5 settings beaches alerts prev coords).notification = none) ∧
    (∀ (language : String) (checkOutcome : Option CheckLocationResult)
      (fetched : List Alert) (prev : Option ZoneType),
      (determineCurrentZoneMS settings language checkOutcome fetched prev).popups = []) ∧
    (∀ (alerts : List Alert) (prev : Option ZoneType) (kinds : List ZoneType),
      runDispatchP5 settings alerts prev kinds = List.replicate kinds.length none) := by
  refine ⟨?_, ?_, ?_⟩
  · intro beaches alerts prev coords
    simp [determineCurrentZoneP5, hl]
  · intro language checkOutcome fetched prev
    simp [determineCurrentZoneMS, hl]
  · intro alerts prev kinds
    induction kinds generalizing prev with
    | nil => rfl
    | cons k ks ih =>
      simp [runDispatchP5, dispatchP5, hl, List.replicate_succ, ih prev]

/-- Witness for C7 at concrete inputs with `locationAlerts` off: the user
inside `squareZone` with a matching alert present still triggers nothing
in either variant. -/
theorem C7_no_dispatch_when_disabled_witness :
    (determineCurrentZoneP5 settingsLocOff [demoBeach] demoAlerts none ⟨2, 2⟩).notification =
      none ∧
    (determineCurrentZoneMS settingsLocOff "en" (some msCheckInside) demoAlerts none).popups =
      [] :=
  ⟨(C7_no_dispatch_when_disabled settingsLocOff rfl).1 [demoBeach] demoAlerts none ⟨2, 2⟩,
    (C7_no_dispatch_when_disabled settingsLocOff rfl).2.1 "en" (some msCheckInside)
      demoAlerts none⟩

/-- C8 (amended): both alert-fetch variants perform a bounded retry of at
most 3 attempts with a fixed delay and never throw. The `MapScreen.tsx`
variant (which sets no per-request timeout) consults only the outcomes of
attempts 0, 1, 2 and returns `[]` once all of them fail; the `part_005`
variant (whose attempts are individually guarded by an abort-controller
timeout) consults only attempts 1, 2, 3 and, once all of them fail, sets
an error and returns no list at all, leaving the cached alerts untouched
— it does not return an empty list (see `C8_counterexample`). -/
theorem C8_bounded_retry :
    (∀ oracle oracle' : ℕ → FetchOutcome,
      (∀ i, i < msMaxRetries → oracle i = oracle' i) →
      fetchAlertsMS oracle = fetchAlertsMS oracle') ∧
    (∀ oracle : ℕ → FetchOutcome,
      (∀ i, i < msMaxRetries → oracle i = FetchOutcome.failure) →
      fetchAlertsMS oracle = []) ∧
    (∀ oracle oracle' : ℕ → Option (List Alert),
      (∀ i, 1 ≤ i → i ≤ 3 → oracle i = oracle' i) →
      fetchAlertsP5 oracle 3 = fetchAlertsP5 oracle' 3) ∧
    (∀ oracle : ℕ → Option (List Alert),
      (∀ i, 1 ≤ i → i ≤ 3 → oracle i = none) →
      fetchAlertsP5 oracle 3 = none) := by
  refine ⟨?_, ?_, ?_, ?_⟩
  · intro oracle oracle' h
    have h0 := h 0 (by decide)
    have h1 := h 1 (by decide)
    have h2 := h 2 (by decide)
    simp [fetchAlertsMS, fetchAlertsMSAux, msMaxRetries, h0, h1, h2]
  · intro oracle h
    have h0 := h 0 (by decide)
    have h1 := h 1 (by decide)
    have h2 := h 2 (by decide)
    simp [fetchAlertsMS, fetchAlertsMSAux, msMaxRetries, h0, h1, h2]
  · intro oracle oracle' h
    have h1 := h 1 (by norm_num) (by norm_num)
    have h2 := h 2 (by norm_num) (by norm_num)
    have h3 := h 3 (by norm_num) (by norm_num)
    simp [fetchAlertsP5, fetchAlertsP5Aux, h1, h2, h3]
  · intro oracle h
    have h1 := h 1 (by norm_num) (by norm_num)
    have h2 := h 2 (by norm_num) (by norm_num)
    have h3 := h 3 (by norm_num) (by norm_num)
    simp [fetchAlertsP5, fetchAlertsP5Aux, h1, h2, h3]

/-- Witness for C8 at concrete oracles: the all-failing `MapScreen.tsx`
fetch returns `[]`; the all-failing `part_005` fetch returns no list; and
an oracle differing from the all-failing one only from attempt 4 onward
gives the `part_005` fetch the same result. -/
theorem C8_bounded_retry_witness :
    fetchAlertsMS (fun _ => FetchOutcome.failure) = [] ∧
    fetchAlertsP5 (fun _ => none) 3 = none ∧
    fetchAlertsP5 (fun i => if i ≤ 3 then none else some demoAlerts) 3 =
      fetchAlertsP5 (fun _ => none) 3 :=
  ⟨C8_bounded_retry.2.1 (fun _ => FetchOutcome.failure) (fun _ _ => rfl),
    C8_bounded_retry.2.2.2 (fun _ => none) (fun _ _ _ => rfl),
    C8_bounded_retry.2.2.1 (fun i => if i ≤ 3 then none else some demoAlerts) (fun _ => none)
      (fun i _ hi => by simp [hi])⟩

/-- Counterexample to C8 as frozen: after exhausting its attempts the
`part_005` alert fetch does not return an empty list — it returns no list
(the `alerts` state is left untouched and an error is recorded). -/
theorem C8_counterexample :
    fetchAlertsP5 (fun _ => none) 3 = none ∧
    fetchAlertsP5 (fun _ => none) 3 ≠ some [] := by decide

/-- C9: `updateSettings` merges the partial into the previous settings —
every field named in the partial takes its new value, every field not
named keeps its previous value — and persists exactly the merged state. -/
theorem C9_update_merges_and_persists (s : Settings) (p : PartialSettings) :
    (updateSettings s p).persisted = (updateSettings s p).state ∧
    (∀ b, p.notifications = some b → (updateSettings s p).state.notifications = b) ∧
    (p.notifications = none → (updateSettings s p).state.notifications = s.notifications) ∧
    (∀ b, p.locationAlerts = some b → (updateSettings s p).state.locationAlerts = b) ∧
    (p.locationAlerts = none → (updateSettings s p).state.locationAlerts = s.locationAlerts) ∧
    (∀ b, p.dailyTips = some b → (updateSettings s p).state.dailyTips = b) ∧
    (p.dailyTips = none → (updateSettings s p).state.dailyTips = s.dailyTips) ∧
    (∀ b, p.sounds = some b → (updateSettings s p).state.sounds = b) ∧
    (p.sounds = none → (updateSettings s p).state.sounds = s.sounds) ∧
    (∀ b, p.vibrations = some b → (updateSettings s p).state.vibrations = b) ∧
    (p.vibrations = none → (updateSettings s p).state.vibrations = s.vibrations) := by
  refine ⟨rfl, ?_, ?_, ?_, ?_, ?_, ?_, ?_, ?_, ?_, ?_⟩ <;>
    first
      | (intro b hb; simp [updateSettings, mergeSettings, hb])
      | (intro hb; simp [updateSettings, mergeSettings, hb])

/-- Witness for C9 at a concrete update: turning only `locationAlerts`
off from the defaults yields `locationAlerts = false` while
`notifications` keeps its previous value, and the persisted blob is the
new state. -/
theorem C9_update_merges_and_persists_witness :
    (updateSettings settingsAllOn partialLocOff).state.locationAlerts = false ∧
    (updateSettings settingsAllOn partialLocOff).state.notifications =
      settingsAllOn.notifications ∧
    (updateSettings settingsAllOn partialLocOff).persisted =
      (updateSettings settingsAllOn partialLocOff).state :=
  ⟨(C9_update_merges_and_persists settingsAllOn partialLocOff).2.2.2.1 false rfl,
    (C9_update_merges_and_persists settingsAllOn partialLocOff).2.2.1 rfl,
    (C9_update_merges_and_persists settingsAllOn partialLocOff).1⟩


theorem edgeCrosses_comm (p a b : LocationCoords) :
    edgeCrosses p a b = edgeCrosses p b a := by
  simp only [edgeCrosses]
  by_cases hy : a.longitude = b.longitude
  · simp [hy]
  · have hx : (a.latitude - b.latitude) * (p.longitude - b.longitude) /
        (a.longitude - b.longitude) + b.latitude =
        (b.latitude - a.latitude) * (p.longitude - a.longitude) /
          (b.longitude - a.longitude) + a.latitude := by
      field_simp [sub_ne_zero.mpr hy, sub_ne_zero.mpr (Ne.symm hy)]
      ring
    rw [hx]
    cases hd : decide (a.longitude > p.longitude) <;>
      cases he : decide (b.longitude > p.longitude) <;> simp [hd, he]


theorem isPointInPolygon_degenerate (p : LocationCoords) (polygon : List LocationCoords)
    (h : polygon.length < 3) : isPointInPolygon p polygon = false := by
  match polygon with
  | [] => rfl
  | [a] =>
    simp [isPointInPolygon, edgeCrosses, List.range_succ]
  | [a, b] =>
    have hc := edgeCrosses_comm p b a
    simp only [isPointInPolygon, List.length_cons, List.length_nil]
    norm_num [List.range_succ, List.getD]
    rw [hc]
    split <;> simp_all
  | a :: b :: c :: rest =>
    exact absurd h (by simp)

end BeachSurf
